import Mathlib

/-!
Verification of the ephemeral research-session subsystem of the
quantconnect-mcp repository: the `SessionManager` registry
(src/quantconnect_mcp/src/adapters/session_manager.py) and the two
`ResearchSession` adapters
(src/quantconnect_mcp/src/adapters/research_session_lean_cli.py, the one the
manager imports, and src/quantconnect_mcp/src/adapters/research_session.py,
the container adapter with the security gate).

The Python code is shallowly embedded: wall-clock reads (`datetime.utcnow()`)
become explicit `now : Int` parameters, external effects (docker, subprocess,
filesystem) become oracle/environment records supplying each call's outcome,
and every `security_logger`/`logger` call that a claim observes is recorded in
an explicit event trace.  Exceptions become `Except` results.
-/

namespace QCMCP

/-- `ResearchSession.is_expired` (research_session_lean_cli.py lines 878-880):
`datetime.utcnow() - self.last_used > max_idle_time`, with the wall clock
passed in explicitly. -/
def isExpiredAt (lastUsed maxIdle now : Int) : Bool :=
  decide (now - lastUsed > maxIdle)

/-- `ResearchSessionError` (research_session_lean_cli.py lines 22-24,
research_session.py lines 23-25): the one exception class of the subsystem;
instances differ only in their message. -/
structure RSError where
  msg : String
  deriving Repr, DecidableEq

/-- The audit sink: the five methods of `security_logger`
(logging_config.py) that the session adapters call. -/
inductive SEvent where
  | sessionCreated (sid : String) (containerId : Nat)
  | sessionDestroyed (sid : String) (reason : String)
  | codeExecution (sid : String) (hash : String) (success : Bool)
  | securityViolation (sid : String) (kind : String) (detail : String)
  | resourceLimitHit (sid : String) (resource : String) (limit : String)
  deriving Repr, DecidableEq

/-- The result dictionary an `execute()` call returns: `status`, `output`,
`error` and `session_id` always; the optional keys only some paths add. -/
structure ExecResult where
  status : String
  output : String
  error : Option String
  sessionId : String
  message : Option String := none
  note : Option String := none
  timeoutFlag : Option Bool := none
  exitCode : Option Int := none
  exceptionType : Option String := none
  deriving Repr, DecidableEq

/-- Python `needle in hay` on strings. -/
def strContains (hay needle : String) : Bool :=
  decide (needle.toList <:+: hay.toList)

/-- Python `s[:n]`. -/
def pyTake (s : String) (n : Nat) : String :=
  String.mk (s.toList.take n)

namespace Mgr

/-- The registry's view of one `ResearchSession` object: the fields
`SessionManager` reads or writes.  `token` models Python object identity
(each constructed session object carries a distinct token). -/
structure MSession where
  sid : String
  createdAt : Int
  lastUsed : Int
  initializedFlag : Bool
  token : Nat
  deriving Repr, DecidableEq

/-- `is_expired(self.session_timeout)` applied to a registry entry. -/
def MSession.isExpired (s : MSession) (maxIdle now : Int) : Bool :=
  isExpiredAt s.lastUsed maxIdle now

/-- Log/audit events the manager-level claims observe: the
`security_logger.log_session_destroyed` call in `ResearchSession.close`, the
swallowed cleanup exception inside `close`, and the
`logger.info("Closed session ...")` line of `SessionManager.close_session`. -/
inductive MEvent where
  | sessionDestroyed (sid : String) (reason : String)
  | cleanupError (sid : String)
  | closedSession (sid : String)
  deriving Repr, DecidableEq

/-- `self._sessions`: a Python dict, embedded as an association list whose
keys are unique for every state the manager can reach. -/
abbrev Registry := List (String × MSession)

/-- Dict lookup `self._sessions.get(session_id)`. -/
def lookupSid (r : Registry) (sid : String) : Option MSession :=
  (r.find? (fun p => decide (p.fst = sid))).map Prod.snd

/-- Dict removal `self._sessions.pop(session_id, None)`'s effect on the dict
(under unique keys, dropping every pair at this key equals dropping the one). -/
def removeSid (r : Registry) (sid : String) : Registry :=
  r.filter (fun p => decide (p.fst ≠ sid))

/-- In-place mutation `session.last_used = datetime.utcnow()` of the entry
stored under `sid`. -/
def touchSid (r : Registry) (sid : String) (now : Int) : Registry :=
  r.map (fun p => if p.fst = sid then (p.fst, { p.snd with lastUsed := now }) else p)

/-- Keys of the registry. -/
def keysOf (r : Registry) : List String :=
  r.map Prod.fst

/-- `SessionManager` state: the registry plus the constructor configuration
(`max_sessions`, `session_timeout`); `nextToken` feeds fresh identity tokens
to newly constructed session objects. -/
structure MState where
  sessions : Registry
  maxSessions : Nat
  sessionTimeout : Int
  nextToken : Nat
  deriving Repr, DecidableEq

/-- A freshly constructed `SessionManager(max_sessions, session_timeout)`. -/
def mkManager (maxSessions : Nat) (sessionTimeout : Int) : MState :=
  { sessions := [], maxSessions := maxSessions,
    sessionTimeout := sessionTimeout, nextToken := 0 }

/-- Event trace of `ResearchSession.close(reason)` as the manager sees it:
stop/kill failures are caught and only logged; a failure inside the cleanup
try-block (modelled per-session by `cfail`) skips the
`log_session_destroyed` call but is swallowed, so `close` never raises. -/
def closeEvents (s : MSession) (reason : String) (cfail : String → Bool) : List MEvent :=
  if cfail s.sid then [MEvent.cleanupError s.sid]
  else [MEvent.sessionDestroyed s.sid reason]

/-- `SessionManager.close_session` (session_manager.py lines 135-150):
pop the id; when present, await `session.close()` (which never raises) and
return `True`; otherwise return `False` untouched. -/
def closeSession (st : MState) (sid : String) (cfail : String → Bool) :
    Bool × MState × List MEvent :=
  match lookupSid st.sessions sid with
  | some s =>
      (true, { st with sessions := removeSid st.sessions sid },
       closeEvents s "normal" cfail ++ [MEvent.closedSession sid])
  | none => (false, st, [])

/-- The ids collected by the scan loop of `_cleanup_expired_sessions`:
every registered session whose `is_expired(self.session_timeout)` holds at
scan time `now`. -/
def expiredSids (st : MState) (now : Int) : List String :=
  keysOf (st.sessions.filter (fun p => p.snd.isExpired st.sessionTimeout now))

/-- The close loops of `_cleanup_expired_sessions` and
`cleanup_all_sessions`: `close_session` applied to each collected id in
order, accumulating the events. -/
def closeMany (st : MState) (sids : List String) (cfail : String → Bool) :
    MState × List MEvent :=
  match sids with
  | [] => (st, [])
  | sid :: rest =>
      let r := closeSession st sid cfail
      let r2 := closeMany r.2.1 rest cfail
      (r2.1, r.2.2 ++ r2.2)

/-- `SessionManager._cleanup_expired_sessions` (session_manager.py lines
187-203): collect the expired ids, then close each. -/
def cleanupExpired (st : MState) (now : Int) (cfail : String → Bool) :
    MState × List MEvent :=
  closeMany st (expiredSids st now) cfail

/-- `SessionManager.cleanup_all_sessions`: close every registered id. -/
def cleanupAllSessions (st : MState) (cfail : String → Bool) :
    MState × List MEvent :=
  closeMany st (keysOf st.sessions) cfail

/-- The capacity failure message of `get_or_create_session`. -/
def capacityMsg (maxSessions : Nat) : String :=
  "Maximum number of sessions (" ++ toString maxSessions ++ ") reached. " ++
    "Please close unused sessions or wait for them to expire."

/-- The tail of `get_or_create_session` after the (possible) expired sweep:
the still-at-capacity re-check, then `ResearchSession(session_id=...)` plus
`await session.initialize()` — `createFail = some r` models that pair raising
with message `r`, in which case the caught exception is re-raised wrapped as
`ResearchSessionError` and nothing is registered; on success the new session
object (a fresh token) is registered and returned.  (In the source the
capacity re-check is guarded by the first capacity test; re-checking when
`len < max` is equivalent since it is then false.) -/
def createStage (st : MState) (sid : String) (now : Int)
    (createFail : Option String) (evs : List MEvent) :
    Except RSError MSession × MState × List MEvent :=
  if st.sessions.length ≥ st.maxSessions then
    (Except.error ⟨capacityMsg st.maxSessions⟩, st, evs)
  else
    match createFail with
    | some r =>
        (Except.error ⟨"Failed to create session: " ++ r⟩,
         { st with nextToken := st.nextToken + 1 }, evs)
    | none =>
        let s : MSession :=
          { sid := sid, createdAt := now, lastUsed := now,
            initializedFlag := true, token := st.nextToken }
        (Except.ok s,
         { st with sessions := st.sessions ++ [(sid, s)],
                   nextToken := st.nextToken + 1 }, evs)

/-- `SessionManager.get_or_create_session` (session_manager.py lines 71-118).
If the id exists: touch `last_used`, return the same object.  Otherwise, when
the registry is at capacity, run the expired sweep first, then `createStage`:
fail with the capacity `ResearchSessionError` if still at capacity, else
construct, register and return. -/
def getOrCreateSession (st : MState) (sid : String) (now : Int)
    (createFail : Option String) (cfail : String → Bool) :
    Except RSError MSession × MState × List MEvent :=
  match lookupSid st.sessions sid with
  | some s =>
      (Except.ok { s with lastUsed := now },
       { st with sessions := touchSid st.sessions sid now }, [])
  | none =>
      if st.sessions.length ≥ st.maxSessions then
        let sw := cleanupExpired st now cfail
        createStage sw.1 sid now createFail sw.2
      else
        createStage st sid now createFail []

/-- `SessionManager.get_session`: lookup only; touches `last_used` when
found, never creates. -/
def getSessionM (st : MState) (sid : String) (now : Int) :
    Option MSession × MState :=
  match lookupSid st.sessions sid with
  | some s =>
      (some { s with lastUsed := now },
       { st with sessions := touchSid st.sessions sid now })
  | none => (none, st)

/-- One manager operation, carrying the wall-clock reading and the external
oracles of that call. -/
inductive MOp where
  | create (sid : String) (now : Int) (createFail : Option String) (cfail : String → Bool)
  | get (sid : String) (now : Int)
  | close (sid : String) (cfail : String → Bool)
  | sweep (now : Int) (cfail : String → Bool)
  | closeAll (cfail : String → Bool)

/-- The state reached after one manager operation. -/
def stepOp (st : MState) (op : MOp) : MState :=
  match op with
  | MOp.create sid now createFail cfail =>
      (getOrCreateSession st sid now createFail cfail).2.1
  | MOp.get sid now => (getSessionM st sid now).2
  | MOp.close sid cfail => (closeSession st sid cfail).2.1
  | MOp.sweep now cfail => (cleanupExpired st now cfail).1
  | MOp.closeAll cfail => (cleanupAllSessions st cfail).1

/-- The state after a whole sequence of manager operations. -/
def runOps (st : MState) (ops : List MOp) : MState :=
  ops.foldl stepOp st

/-- The registry's keys are distinct (a Python dict cannot hold a key twice). -/
def nodupKeys (r : Registry) : Prop :=
  (keysOf r).Nodup

theorem lookupSid_cons (p : String × MSession) (r : Registry) (sid : String) :
    lookupSid (p :: r) sid =
      if p.fst = sid then some p.snd else lookupSid r sid := by
  by_cases h : p.fst = sid <;> simp [lookupSid, List.find?_cons, h]

theorem lookupSid_eq_none_of_not_mem (r : Registry) (sid : String)
    (h : sid ∉ keysOf r) : lookupSid r sid = none := by
  induction r with
  | nil => rfl
  | cons p r ih =>
      simp only [keysOf, List.map_cons, List.mem_cons, not_or] at h
      rw [lookupSid_cons, if_neg (fun hp => h.1 hp.symm)]
      exact ih h.2

theorem mem_keysOf_of_lookupSid (r : Registry) (sid : String) (s : MSession)
    (h : lookupSid r sid = some s) : sid ∈ keysOf r := by
  by_contra hmem
  rw [lookupSid_eq_none_of_not_mem r sid hmem] at h
  exact Option.noConfusion h

theorem removeSid_cons (p : String × MSession) (r : Registry) (sid : String) :
    removeSid (p :: r) sid =
      if p.fst = sid then removeSid r sid else p :: removeSid r sid := by
  by_cases h : p.fst = sid <;> simp [removeSid, List.filter_cons, h]

theorem lookupSid_removeSid_self (r : Registry) (sid : String) :
    lookupSid (removeSid r sid) sid = none := by
  induction r with
  | nil => rfl
  | cons p r ih =>
      rw [removeSid_cons]
      by_cases h : p.fst = sid
      · rw [if_pos h]; exact ih
      · rw [if_neg h, lookupSid_cons, if_neg h]; exact ih

theorem lookupSid_removeSid_ne (r : Registry) (sid k : String) (hk : k ≠ sid) :
    lookupSid (removeSid r sid) k = lookupSid r k := by
  induction r with
  | nil => rfl
  | cons p r ih =>
      rw [removeSid_cons]
      by_cases h : p.fst = sid
      · rw [if_pos h, lookupSid_cons, if_neg (h ▸ fun hp => hk hp.symm)]
        exact ih
      · rw [if_neg h, lookupSid_cons, lookupSid_cons]
        by_cases hpk : p.fst = k
        · rw [if_pos hpk, if_pos hpk]
        · rw [if_neg hpk, if_neg hpk]; exact ih

theorem removeSid_of_lookupSid_none (r : Registry) (sid : String)
    (h : lookupSid r sid = none) : removeSid r sid = r := by
  induction r with
  | nil => rfl
  | cons p r ih =>
      rw [lookupSid_cons] at h
      by_cases hp : p.fst = sid
      · rw [if_pos hp] at h; exact Option.noConfusion h
      · rw [if_neg hp] at h
        rw [removeSid_cons, if_neg hp, ih h]

theorem length_removeSid_le (r : Registry) (sid : String) :
    (removeSid r sid).length ≤ r.length :=
  List.length_filter_le _ r

theorem length_touchSid (r : Registry) (sid : String) (now : Int) :
    (touchSid r sid now).length = r.length :=
  List.length_map r _

theorem keysOf_touchSid (r : Registry) (sid : String) (now : Int) :
    keysOf (touchSid r sid now) = keysOf r := by
  induction r with
  | nil => rfl
  | cons p r ih =>
      by_cases h : p.fst = sid <;>
        simp [touchSid, keysOf, h] at * <;> exact ih

theorem lookupSid_touchSid_self (r : Registry) (sid : String) (now : Int) :
    lookupSid (touchSid r sid now) sid =
      (lookupSid r sid).map (fun s => { s with lastUsed := now }) := by
  induction r with
  | nil => rfl
  | cons p r ih =>
      by_cases h : p.fst = sid
      · simp only [touchSid, List.map_cons, if_pos h]
        rw [lookupSid_cons, lookupSid_cons, if_pos h, if_pos h]
        rfl
      · simp only [touchSid, List.map_cons, if_neg h]
        rw [lookupSid_cons, lookupSid_cons, if_neg h, if_neg h]
        exact ih

theorem lookupSid_append_right (r : Registry) (sid : String) (s : MSession)
    (h : lookupSid r sid = none) :
    lookupSid (r ++ [(sid, s)]) sid = some s := by
  induction r with
  | nil => simp [lookupSid, List.find?]
  | cons p r ih =>
      rw [lookupSid_cons] at h
      by_cases hp : p.fst = sid
      · rw [if_pos hp] at h; exact Option.noConfusion h
      · rw [if_neg hp] at h
        rw [List.cons_append, lookupSid_cons, if_neg hp]
        exact ih h

theorem closeSession_sessions (st : MState) (sid : String) (cfail : String → Bool) :
    (closeSession st sid cfail).2.1.sessions = removeSid st.sessions sid := by
  unfold closeSession
  cases h : lookupSid st.sessions sid with
  | some s => rfl
  | none => exact (removeSid_of_lookupSid_none _ _ h).symm

theorem closeSession_config (st : MState) (sid : String) (cfail : String → Bool) :
    (closeSession st sid cfail).2.1.maxSessions = st.maxSessions ∧
    (closeSession st sid cfail).2.1.sessionTimeout = st.sessionTimeout ∧
    (closeSession st sid cfail).2.1.nextToken = st.nextToken := by
  unfold closeSession
  cases lookupSid st.sessions sid <;> exact ⟨rfl, rfl, rfl⟩

theorem closeMany_sessions (sids : List String) (st : MState) (cfail : String → Bool) :
    (closeMany st sids cfail).1.sessions =
      st.sessions.filter (fun p => decide (p.fst ∉ sids)) := by
  induction sids generalizing st with
  | nil => simp [closeMany]
  | cons sid rest ih =>
      show (closeMany (closeSession st sid cfail).2.1 rest cfail).1.sessions = _
      rw [ih, closeSession_sessions]
      unfold removeSid
      rw [List.filter_filter]
      apply List.filter_congr
      intro p _
      by_cases h1 : p.fst = sid <;> by_cases h2 : p.fst ∈ rest <;>
        simp [h1, h2]

theorem closeMany_config (sids : List String) (st : MState) (cfail : String → Bool) :
    (closeMany st sids cfail).1.maxSessions = st.maxSessions ∧
    (closeMany st sids cfail).1.sessionTimeout = st.sessionTimeout ∧
    (closeMany st sids cfail).1.nextToken = st.nextToken := by
  induction sids generalizing st with
  | nil => exact ⟨rfl, rfl, rfl⟩
  | cons sid rest ih =>
      show (closeMany (closeSession st sid cfail).2.1 rest cfail).1.maxSessions = _ ∧ _
      have h1 := closeSession_config st sid cfail
      have h2 := ih (closeSession st sid cfail).2.1
      exact ⟨h2.1.trans h1.1, h2.2.1.trans h1.2.1, h2.2.2.trans h1.2.2⟩

theorem closeMany_length_le (sids : List String) (st : MState) (cfail : String → Bool) :
    (closeMany st sids cfail).1.sessions.length ≤ st.sessions.length := by
  rw [closeMany_sessions]
  exact List.length_filter_le _ _

theorem createStage_maxSessions (st : MState) (sid : String) (now : Int)
    (createFail : Option String) (evs : List MEvent) :
    (createStage st sid now createFail evs).2.1.maxSessions = st.maxSessions := by
  unfold createStage
  split
  · rfl
  · cases createFail <;> rfl

theorem createStage_length_le (st : MState) (sid : String) (now : Int)
    (createFail : Option String) (evs : List MEvent)
    (h : st.sessions.length ≤ st.maxSessions) :
    (createStage st sid now createFail evs).2.1.sessions.length ≤
      (createStage st sid now createFail evs).2.1.maxSessions := by
  unfold createStage
  split
  · exact h
  next hcap =>
    rw [not_le] at hcap
    cases createFail with
    | some r => exact le_of_lt hcap
    | none => simpa using hcap

theorem getOrCreateSession_length_le (st : MState) (sid : String) (now : Int)
    (createFail : Option String) (cfail : String → Bool)
    (h : st.sessions.length ≤ st.maxSessions) :
    (getOrCreateSession st sid now createFail cfail).2.1.sessions.length ≤
      (getOrCreateSession st sid now createFail cfail).2.1.maxSessions := by
  unfold getOrCreateSession
  split
  · simpa [length_touchSid] using h
  · split
    · refine createStage_length_le _ sid now createFail _ ?_
      rw [cleanupExpired, (closeMany_config _ st cfail).1]
      exact le_trans (closeMany_length_le _ st cfail) h
    · exact createStage_length_le st sid now createFail [] h

theorem getOrCreateSession_maxSessions (st : MState) (sid : String) (now : Int)
    (createFail : Option String) (cfail : String → Bool) :
    (getOrCreateSession st sid now createFail cfail).2.1.maxSessions = st.maxSessions := by
  unfold getOrCreateSession
  split
  · rfl
  · split
    · rw [createStage_maxSessions, cleanupExpired, (closeMany_config _ st cfail).1]
    · rw [createStage_maxSessions]

theorem getSessionM_sessions_length (st : MState) (sid : String) (now : Int) :
    (getSessionM st sid now).2.sessions.length = st.sessions.length := by
  unfold getSessionM
  split
  · exact length_touchSid _ _ _
  · rfl

theorem getSessionM_maxSessions (st : MState) (sid : String) (now : Int) :
    (getSessionM st sid now).2.maxSessions = st.maxSessions := by
  unfold getSessionM
  split <;> rfl

theorem stepOp_invariant (st : MState) (op : MOp)
    (h : st.sessions.length ≤ st.maxSessions) :
    (stepOp st op).sessions.length ≤ (stepOp st op).maxSessions := by
  cases op with
  | create sid now createFail cfail =>
      exact getOrCreateSession_length_le st sid now createFail cfail h
  | get sid now =>
      rw [stepOp, getSessionM_sessions_length, getSessionM_maxSessions]
      exact h
  | close sid cfail =>
      rw [stepOp, closeSession_sessions, (closeSession_config st sid cfail).1]
      exact le_trans (length_removeSid_le _ _) h
  | sweep now cfail =>
      rw [stepOp, cleanupExpired, (closeMany_config _ st cfail).1]
      exact le_trans (closeMany_length_le _ st cfail) h
  | closeAll cfail =>
      rw [stepOp, cleanupAllSessions, (closeMany_config _ st cfail).1]
      exact le_trans (closeMany_length_le _ st cfail) h

theorem stepOp_maxSessions (st : MState) (op : MOp) :
    (stepOp st op).maxSessions = st.maxSessions := by
  cases op with
  | create sid now createFail cfail =>
      exact getOrCreateSession_maxSessions st sid now createFail cfail
  | get sid now => exact getSessionM_maxSessions st sid now
  | close sid cfail => exact (closeSession_config st sid cfail).1
  | sweep now cfail => exact (closeMany_config _ st cfail).1
  | closeAll cfail => exact (closeMany_config _ st cfail).1

theorem runOps_invariant (ops : List MOp) (st : MState)
    (h : st.sessions.length ≤ st.maxSessions) :
    (runOps st ops).sessions.length ≤ (runOps st ops).maxSessions := by
  induction ops generalizing st with
  | nil => exact h
  | cons op rest ih =>
      exact ih (stepOp st op) (stepOp_invariant st op h)

theorem runOps_maxSessions (ops : List MOp) (st : MState) :
    (runOps st ops).maxSessions = st.maxSessions := by
  induction ops generalizing st with
  | nil => rfl
  | cons op rest ih =>
      rw [show runOps st (op :: rest) = runOps (stepOp st op) rest from rfl, ih,
        stepOp_maxSessions]

theorem lookupSid_filter_none (r : Registry) (q : String × MSession → Bool)
    (sid : String) (h : lookupSid r sid = none) :
    lookupSid (r.filter q) sid = none := by
  induction r with
  | nil => rfl
  | cons p r ih =>
      rw [lookupSid_cons] at h
      by_cases hp : p.fst = sid
      · rw [if_pos hp] at h; exact Option.noConfusion h
      · rw [if_neg hp] at h
        rw [List.filter_cons]
        by_cases hq : q p = true
        · rw [if_pos hq, lookupSid_cons, if_neg hp]; exact ih h
        · rw [if_neg hq]; exact ih h

theorem cleanupExpired_lookup_none (st : MState) (now : Int)
    (cfail : String → Bool) (sid : String)
    (h : lookupSid st.sessions sid = none) :
    lookupSid (cleanupExpired st now cfail).1.sessions sid = none := by
  rw [cleanupExpired, closeMany_sessions]
  exact lookupSid_filter_none _ _ _ h

theorem createStage_error (st : MState) (sid : String) (now : Int)
    (createFail : Option String) (evs : List MEvent) (e : RSError)
    (hnone : lookupSid st.sessions sid = none)
    (h : (createStage st sid now createFail evs).1 = Except.error e) :
    lookupSid (createStage st sid now createFail evs).2.1.sessions sid = none ∧
      (e.msg = capacityMsg st.maxSessions ∨
        ∃ r, createFail = some r ∧ e.msg = "Failed to create session: " ++ r) := by
  unfold createStage at h ⊢
  split at h
  next hcap =>
      rw [if_pos hcap]
      refine ⟨hnone, Or.inl ?_⟩
      cases h
      rfl
  next hcap =>
      rw [if_neg hcap]
      cases createFail with
      | some r =>
          simp only [] at h ⊢
          cases h
          exact ⟨hnone, Or.inr ⟨r, rfl, rfl⟩⟩
      | none => simp at h

/-- Claim C3 (capacity invariant, session_manager.py lines 96-114).
First conjunct: from a freshly constructed manager, no sequence of manager
operations makes the registry exceed `max_sessions`.  Second conjunct: when a
create request arrives for an absent id with the registry at capacity, the
expired sweep runs first, and if the registry is still at capacity the call
fails with the capacity `ResearchSessionError` and the state is exactly the
swept state — no session is registered. -/
theorem claim_C3_capacity_invariant :
    (∀ (maxS : Nat) (t : Int) (ops : List MOp),
      (runOps (mkManager maxS t) ops).sessions.length ≤ maxS)
    ∧ (∀ (st : MState) (sid : String) (now : Int) (createFail : Option String)
        (cfail : String → Bool),
        lookupSid st.sessions sid = none →
        st.sessions.length ≥ st.maxSessions →
        (cleanupExpired st now cfail).1.sessions.length ≥ st.maxSessions →
        getOrCreateSession st sid now createFail cfail =
          (Except.error ⟨capacityMsg st.maxSessions⟩,
           (cleanupExpired st now cfail).1, (cleanupExpired st now cfail).2)) := by
  constructor
  · intro maxS t ops
    have h := runOps_invariant ops (mkManager maxS t) (by simp [mkManager])
    rwa [runOps_maxSessions] at h
  · intro st sid now createFail cfail hnone hcap hstill
    have hmax : (cleanupExpired st now cfail).1.maxSessions = st.maxSessions := by
      rw [cleanupExpired]; exact (closeMany_config _ st cfail).1
    unfold getOrCreateSession
    rw [hnone]
    simp only [ge_iff_le]
    rw [if_pos hcap]
    unfold createStage
    rw [if_pos (show (cleanupExpired st now cfail).1.sessions.length ≥
      (cleanupExpired st now cfail).1.maxSessions by rw [hmax]; exact hstill), hmax]

/-- Witness for C3 at a concrete input: a manager with `max_sessions = 0`
rejects the first create with the capacity error and registers nothing. -/
theorem claim_C3_capacity_invariant_witness :
    getOrCreateSession (mkManager 0 0) "s1" 0 none (fun _ => false) =
      (Except.error ⟨capacityMsg 0⟩, mkManager 0 0, []) := by
  have h := claim_C3_capacity_invariant.2 (mkManager 0 0) "s1" 0 none
    (fun _ => false) rfl (le_refl 0) (le_refl 0)
  exact h

theorem nodupKeys_cons (p : String × MSession) (r : Registry) :
    nodupKeys (p :: r) ↔ p.fst ∉ keysOf r ∧ nodupKeys r := by
  simp [nodupKeys, keysOf]

theorem keysOf_filter_sublist (r : Registry) (q : String × MSession → Bool) :
    (keysOf (r.filter q)).Sublist (keysOf r) :=
  (List.filter_sublist r).map Prod.fst

theorem lookupSid_isSome_of_mem (r : Registry) (sid : String)
    (h : sid ∈ keysOf r) : ∃ s, lookupSid r sid = some s := by
  induction r with
  | nil => simp [keysOf] at h
  | cons p r ih =>
      rw [lookupSid_cons]
      by_cases hp : p.fst = sid
      · rw [if_pos hp]; exact ⟨p.snd, rfl⟩
      · rw [if_neg hp]
        apply ih
        simp only [keysOf, List.map_cons, List.mem_cons] at h
        exact h.resolve_left (fun he => hp he.symm)

theorem lookupSid_filter (r : Registry) (q : String × MSession → Bool) (sid : String)
    (hn : nodupKeys r) :
    lookupSid (r.filter q) sid =
      match lookupSid r sid with
      | some v => if q (sid, v) = true then some v else none
      | none => none := by
  induction r with
  | nil => rfl
  | cons p r ih =>
      obtain ⟨hp1, hp2⟩ := (nodupKeys_cons p r).mp hn
      rw [List.filter_cons, lookupSid_cons]
      by_cases hp : p.fst = sid
      · subst hp
        by_cases hq : q p = true
        · rw [if_pos hq, lookupSid_cons]
          simp [hq]
        · rw [if_neg hq,
            lookupSid_filter_none r q p.fst (lookupSid_eq_none_of_not_mem r p.fst hp1)]
          simp [lookupSid_cons, hq]
      · rw [if_neg hp]
        by_cases hq : q p = true
        · rw [if_pos hq, lookupSid_cons, if_neg hp]
          exact ih hp2
        · rw [if_neg hq]
          exact ih hp2

/-- The ids named by the `logger.info("Closed session ...")` lines of a trace:
the sessions a sweep actually closed and removed. -/
def closedOf (evs : List MEvent) : List String :=
  evs.filterMap (fun e =>
    match e with
    | MEvent.closedSession s => some s
    | _ => none)

theorem closedOf_append (a b : List MEvent) :
    closedOf (a ++ b) = closedOf a ++ closedOf b :=
  List.filterMap_append a b _

theorem closedOf_closeEvents (s : MSession) (reason : String)
    (cfail : String → Bool) : closedOf (closeEvents s reason cfail) = [] := by
  unfold closeEvents
  split <;> rfl

theorem keysOf_removeSid (r : Registry) (sid : String) :
    keysOf (removeSid r sid) = (keysOf r).filter (fun k => decide (k ≠ sid)) := by
  induction r with
  | nil => rfl
  | cons p r ih =>
      rw [removeSid_cons]
      by_cases hp : p.fst = sid
      · rw [if_pos hp]
        simp only [keysOf, List.map_cons, List.filter_cons, hp]
        rw [if_neg (by simp)]
        exact ih
      · rw [if_neg hp]
        simp only [keysOf, List.map_cons, List.filter_cons]
        rw [if_pos (by simpa using hp)]
        exact congrArg (List.cons p.fst) ih

theorem closeMany_closedOf (sids : List String) (st : MState)
    (cfail : String → Bool) (hsub : ∀ x ∈ sids, x ∈ keysOf st.sessions)
    (hnd : sids.Nodup) :
    closedOf (closeMany st sids cfail).2 = sids := by
  induction sids generalizing st with
  | nil => rfl
  | cons sid rest ih =>
      obtain ⟨s, hs⟩ := lookupSid_isSome_of_mem st.sessions sid
        (hsub sid (List.mem_cons_self _ _))
      have hstep : closeSession st sid cfail =
          (true, { st with sessions := removeSid st.sessions sid },
           closeEvents s "normal" cfail ++ [MEvent.closedSession sid]) := by
        unfold closeSession
        rw [hs]
      show closedOf ((closeSession st sid cfail).2.2 ++
        (closeMany (closeSession st sid cfail).2.1 rest cfail).2) = sid :: rest
      rw [hstep]
      rw [closedOf_append, closedOf_append, closedOf_closeEvents]
      have hrest : closedOf (closeMany { st with
          sessions := removeSid st.sessions sid } rest cfail).2 = rest := by
        apply ih
        intro x hx
        have hxk := hsub x (List.mem_cons_of_mem _ hx)
        have hxne : x ≠ sid := fun he =>
          (List.nodup_cons.mp hnd).1 (he ▸ hx)
        show x ∈ keysOf (removeSid st.sessions sid)
        rw [keysOf_removeSid]
        exact List.mem_filter.mpr ⟨hxk, by simpa using hxne⟩
        · exact (List.nodup_cons.mp hnd).2
      rw [hrest]
      rfl

theorem expiredSids_sub (st : MState) (now : Int) :
    ∀ x ∈ expiredSids st now, x ∈ keysOf st.sessions := by
  intro x hx
  exact (keysOf_filter_sublist st.sessions _).subset hx

theorem expiredSids_nodup (st : MState) (now : Int) (hn : nodupKeys st.sessions) :
    (expiredSids st now).Nodup :=
  hn.sublist (keysOf_filter_sublist st.sessions _)

theorem mem_keysOf_filter_expired (r : Registry) (d now : Int) (sid : String)
    (v : MSession) (hn : nodupKeys r) (h : lookupSid r sid = some v) :
    (sid ∈ keysOf (r.filter (fun p => p.snd.isExpired d now)) ↔
      v.isExpired d now = true) := by
  induction r with
  | nil => exact Option.noConfusion h
  | cons p r ih =>
      obtain ⟨hp1, hp2⟩ := (nodupKeys_cons p r).mp hn
      rw [lookupSid_cons] at h
      rw [List.filter_cons]
      by_cases hp : p.fst = sid
      · rw [if_pos hp] at h
        injection h with hv
        subst hv
        by_cases hq : p.snd.isExpired d now = true
        · rw [if_pos hq]
          simp only [keysOf, List.map_cons, List.mem_cons]
          exact ⟨fun _ => hq, fun _ => Or.inl hp.symm⟩
        · rw [if_neg hq]
          constructor
          · intro hmem
            exact absurd ((keysOf_filter_sublist r _).subset hmem) (hp ▸ hp1)
          · intro hc
            exact absurd hc hq
      · rw [if_neg hp] at h
        have hrec := ih hp2 h
        by_cases hq : p.snd.isExpired d now = true
        · rw [if_pos hq]
          simp only [keysOf, List.map_cons, List.mem_cons]
          rw [← hrec]
          exact ⟨fun hc => hc.resolve_left (fun he => hp he.symm), Or.inr⟩
        · rw [if_neg hq]
          exact hrec

theorem mem_expiredSids (st : MState) (now : Int) (sid : String) (v : MSession)
    (hn : nodupKeys st.sessions) (h : lookupSid st.sessions sid = some v) :
    (sid ∈ expiredSids st now ↔ v.isExpired st.sessionTimeout now = true) :=
  mem_keysOf_filter_expired st.sessions st.sessionTimeout now sid v hn h

/-- Claim C6 (session_manager.py lines 187-203 and
research_session_lean_cli.py lines 878-880).  First conjunct: `is_expired`
holds exactly when `now - last_used > max_idle`, a strict inequality.
Second conjunct, for every close-failure oracle `cfail` (so an error while
closing one expired session never stops the others from being processed):
one expired-session sweep removes from the registry exactly the sessions
expired at scan time — an expired id is gone, a non-expired id still maps to
the very same unmodified record — and the ids it closed are exactly the
expired ids. -/
theorem claim_C6_expiry_sweep_exact :
    (∀ lastUsed maxIdle now : Int,
      isExpiredAt lastUsed maxIdle now = true ↔ now - lastUsed > maxIdle)
    ∧ (∀ (st : MState) (now : Int) (cfail : String → Bool),
        nodupKeys st.sessions →
        (∀ sid v, lookupSid st.sessions sid = some v →
          lookupSid (cleanupExpired st now cfail).1.sessions sid =
            (if v.isExpired st.sessionTimeout now = true then none else some v))
        ∧ closedOf (cleanupExpired st now cfail).2 = expiredSids st now) := by
  constructor
  · intro lastUsed maxIdle now
    exact decide_eq_true_iff
  · intro st now cfail hn
    constructor
    · intro sid v hv
      rw [cleanupExpired, closeMany_sessions, lookupSid_filter _ _ _ hn, hv]
      have hmem := mem_expiredSids st now sid v hn hv
      by_cases hexp : v.isExpired st.sessionTimeout now = true
      · rw [if_pos hexp]
        simp [hmem.mpr hexp]
      · rw [if_neg hexp]
        have hnin : sid ∉ expiredSids st now := fun hin => hexp (hmem.mp hin)
        simp [hnin]
    · rw [cleanupExpired]
      exact closeMany_closedOf (expiredSids st now) st cfail
        (expiredSids_sub st now) (expiredSids_nodup st now hn)

/-- A two-session registry for the C6 witness: at scan time 50 with timeout
10, session a (idle since 0) is expired and session b (used at 45) is not. -/
def sweepState : MState :=
  { sessions :=
      [("a", { sid := "a", createdAt := 0, lastUsed := 0,
               initializedFlag := true, token := 0 }),
       ("b", { sid := "b", createdAt := 0, lastUsed := 45,
               initializedFlag := true, token := 1 })],
    maxSessions := 10, sessionTimeout := 10, nextToken := 2 }

/-- Witness for C6 at `sweepState`, with every individual close failing
(`cfail` constantly true): the sweep still removes exactly the expired
session a, keeps b unmodified, and closes exactly a. -/
theorem claim_C6_expiry_sweep_exact_witness :
    nodupKeys sweepState.sessions ∧
      lookupSid (cleanupExpired sweepState 50 (fun _ => true)).1.sessions "a" = none ∧
      lookupSid (cleanupExpired sweepState 50 (fun _ => true)).1.sessions "b" =
        some { sid := "b", createdAt := 0, lastUsed := 45,
               initializedFlag := true, token := 1 } ∧
      closedOf (cleanupExpired sweepState 50 (fun _ => true)).2 = ["a"] := by
  have hnd : nodupKeys sweepState.sessions := by
    show (keysOf sweepState.sessions).Nodup
    decide
  have h := claim_C6_expiry_sweep_exact.2 sweepState 50 (fun _ => true) hnd
  refine ⟨hnd, ?_, ?_, ?_⟩
  · have ha := h.1 "a"
      { sid := "a", createdAt := 0, lastUsed := 0, initializedFlag := true, token := 0 }
      rfl
    simpa using ha
  · have hb := h.1 "b"
      { sid := "b", createdAt := 0, lastUsed := 45, initializedFlag := true, token := 1 }
      rfl
    simpa using hb
  · exact h.2.trans (by decide)

theorem getOrCreateSession_existing (st : MState) (sid : String) (now : Int)
    (createFail : Option String) (cfail : String → Bool) (s : MSession)
    (h : lookupSid st.sessions sid = some s) :
    getOrCreateSession st sid now createFail cfail =
      (Except.ok { s with lastUsed := now },
       { st with sessions := touchSid st.sessions sid now }, []) := by
  unfold getOrCreateSession
  rw [h]

theorem createStage_ok (st : MState) (sid : String) (now : Int)
    (createFail : Option String) (evs : List MEvent) (s : MSession)
    (hnone : lookupSid st.sessions sid = none)
    (h : (createStage st sid now createFail evs).1 = Except.ok s) :
    lookupSid (createStage st sid now createFail evs).2.1.sessions sid = some s ∧
      s.lastUsed = now := by
  unfold createStage at h ⊢
  split at h
  · exact Except.noConfusion h
  next hcap =>
      rw [if_neg hcap]
      cases createFail with
      | some r => exact Except.noConfusion h
      | none =>
          simp only [] at h
          cases h
          exact ⟨lookupSid_append_right _ _ _ hnone, rfl⟩

theorem getOrCreateSession_ok_lookup (st : MState) (sid : String) (now : Int)
    (createFail : Option String) (cfail : String → Bool) (s : MSession)
    (h : (getOrCreateSession st sid now createFail cfail).1 = Except.ok s) :
    lookupSid (getOrCreateSession st sid now createFail cfail).2.1.sessions sid = some s ∧
      s.lastUsed = now := by
  unfold getOrCreateSession at h ⊢
  split at h
  next s0 heq =>
      simp only [] at h
      cases h
      rw [lookupSid_touchSid_self, heq]
      exact ⟨rfl, rfl⟩
  next heq =>
      split at h
      next hcap =>
          rw [if_pos hcap]
          exact createStage_ok _ sid now createFail _ s
            (cleanupExpired_lookup_none st now cfail sid heq) h
      next hcap =>
          rw [if_neg hcap]
          exact createStage_ok st sid now createFail [] s heq h

/-- Claim C7 (session_manager.py lines 89-94): two `get_or_create_session`
calls on the same id with no intervening close return the identical session
instance (same identity token; the second result is the first object with
`last_used` touched), the second call creates nothing (keys and the identity
counter are unchanged), and under a monotone clock `last_used` never
decreases across the calls. -/
theorem claim_C7_repeat_get_or_create (st : MState) (sid : String)
    (t1 t2 : Int) (c1 c2 : Option String) (cf1 cf2 : String → Bool) (s1 : MSession)
    (h1 : (getOrCreateSession st sid t1 c1 cf1).1 = Except.ok s1)
    (hmono : t1 ≤ t2) :
    (getOrCreateSession (getOrCreateSession st sid t1 c1 cf1).2.1 sid t2 c2 cf2).1 =
        Except.ok { s1 with lastUsed := t2 } ∧
      ({ s1 with lastUsed := t2 } : MSession).token = s1.token ∧
      keysOf (getOrCreateSession (getOrCreateSession st sid t1 c1 cf1).2.1
          sid t2 c2 cf2).2.1.sessions =
        keysOf (getOrCreateSession st sid t1 c1 cf1).2.1.sessions ∧
      (getOrCreateSession (getOrCreateSession st sid t1 c1 cf1).2.1
          sid t2 c2 cf2).2.1.nextToken =
        (getOrCreateSession st sid t1 c1 cf1).2.1.nextToken ∧
      s1.lastUsed ≤ ({ s1 with lastUsed := t2 } : MSession).lastUsed := by
  have hlk := getOrCreateSession_ok_lookup st sid t1 c1 cf1 s1 h1
  rw [getOrCreateSession_existing _ sid t2 c2 cf2 s1 hlk.1]
  refine ⟨rfl, rfl, keysOf_touchSid _ sid t2, rfl, ?_⟩
  rw [hlk.2]
  exact hmono

/-- Witness for C7: create `s1` at time 0, call again at time 5 — the same
token comes back with `last_used` advanced to 5 and nothing new created. -/
theorem claim_C7_repeat_get_or_create_witness :
    (getOrCreateSession (getOrCreateSession (mkManager 2 10) "s1" 0 none
        (fun _ => false)).2.1 "s1" 5 none (fun _ => false)).1 =
      Except.ok { sid := "s1", createdAt := 0, lastUsed := 5,
                  initializedFlag := true, token := 0 } := by
  exact (claim_C7_repeat_get_or_create (mkManager 2 10) "s1" 0 5 none none
    (fun _ => false) (fun _ => false)
    { sid := "s1", createdAt := 0, lastUsed := 0, initializedFlag := true, token := 0 }
    rfl (by norm_num)).1

/-- Claim C9 (session_manager.py lines 135-150): `close_session` returns
`True` and removes exactly the given id (closing that session) when present;
on an absent id — including a repeated call right after a successful close —
it returns `False` and performs no side effect at all. -/
theorem claim_C9_close_session_idempotent (st : MState) (sid : String)
    (cfail : String → Bool) :
    ((closeSession st sid cfail).1 = true ↔
        ∃ s, lookupSid st.sessions sid = some s) ∧
      (∀ s, lookupSid st.sessions sid = some s →
        lookupSid (closeSession st sid cfail).2.1.sessions sid = none ∧
          (∀ k, k ≠ sid →
            lookupSid (closeSession st sid cfail).2.1.sessions k =
              lookupSid st.sessions k) ∧
          (closeSession st sid cfail).2.2 =
            closeEvents s "normal" cfail ++ [MEvent.closedSession sid]) ∧
      (lookupSid st.sessions sid = none →
        closeSession st sid cfail = (false, st, [])) ∧
      closeSession (closeSession st sid cfail).2.1 sid cfail =
        (false, (closeSession st sid cfail).2.1, []) := by
  have habsent : ∀ (st2 : MState), lookupSid st2.sessions sid = none →
      closeSession st2 sid cfail = (false, st2, []) := by
    intro st2 hnone
    unfold closeSession
    rw [hnone]
  have habs : lookupSid (closeSession st sid cfail).2.1.sessions sid = none := by
    rw [closeSession_sessions]
    exact lookupSid_removeSid_self _ _
  refine ⟨?_, ?_, habsent st, habsent _ habs⟩
  · unfold closeSession
    cases h : lookupSid st.sessions sid with
    | some s => simp
    | none => simp
  · intro s hs
    refine ⟨habs, ?_, ?_⟩
    · intro k hk
      rw [closeSession_sessions]
      exact lookupSid_removeSid_ne _ sid k hk
    · unfold closeSession
      rw [hs]

/-- Witness for C9 at a concrete registry: closing the only session succeeds
and a second close of the same id is a `False` no-op. -/
theorem claim_C9_close_session_idempotent_witness :
    (closeSession (getOrCreateSession (mkManager 2 10) "s1" 0 none
        (fun _ => false)).2.1 "s1" (fun _ => false)).1 = true := by
  refine (claim_C9_close_session_idempotent (getOrCreateSession (mkManager 2 10)
    "s1" 0 none (fun _ => false)).2.1 "s1" (fun _ => false)).1.mpr ?_
  exact ⟨{ sid := "s1", createdAt := 0, lastUsed := 0,
           initializedFlag := true, token := 0 }, rfl⟩

/-- Claim C10 (session_manager.py lines 96-118): every failure of
`get_or_create_session` is raised as the single type `ResearchSessionError`,
the capacity case and the construction/initialization case differing only in
the message; and whenever the call fails, the post-call registry holds no
entry for the requested id (registration happens only after `initialize()`
returned). -/
theorem claim_C10_error_unregistered (st : MState) (sid : String) (now : Int)
    (createFail : Option String) (cfail : String → Bool) (e : RSError)
    (h : (getOrCreateSession st sid now createFail cfail).1 = Except.error e) :
    lookupSid (getOrCreateSession st sid now createFail cfail).2.1.sessions sid = none ∧
      (e.msg = capacityMsg st.maxSessions ∨
        ∃ r, createFail = some r ∧ e.msg = "Failed to create session: " ++ r) := by
  unfold getOrCreateSession at h ⊢
  split at h
  next s heq =>
      exact Except.noConfusion h
  next heq =>
      split at h
      next hcap =>
          have hmax : (cleanupExpired st now cfail).1.maxSessions = st.maxSessions := by
            rw [cleanupExpired]; exact (closeMany_config _ st cfail).1
          rw [if_pos hcap]
          have hnone := cleanupExpired_lookup_none st now cfail sid heq
          have hres := createStage_error _ sid now createFail _ e hnone h
          exact ⟨hres.1, by rw [← hmax]; exact hres.2⟩
      next hcap =>
          rw [if_neg hcap]
          exact createStage_error st sid now createFail [] e heq h

/-- Witness for C10: the capacity failure at `max_sessions = 0` leaves the
requested id unregistered and carries the capacity message. -/
theorem claim_C10_error_unregistered_witness :
    lookupSid (getOrCreateSession (mkManager 0 0) "s1" 0 none
        (fun _ => false)).2.1.sessions "s1" = none ∧
      ((RSError.mk (capacityMsg 0)).msg = capacityMsg (mkManager 0 0).maxSessions ∨
        ∃ r, (none : Option String) = some r ∧
          (RSError.mk (capacityMsg 0)).msg = "Failed to create session: " ++ r) := by
  exact claim_C10_error_unregistered (mkManager 0 0) "s1" 0 none
    (fun _ => false) ⟨capacityMsg 0⟩ rfl

end Mgr

namespace CLI

/-- The per-session state of the lean-cli `ResearchSession`
(research_session_lean_cli.py): `container` is the docker handle (by id)
once located, `tempOwned` whether `_temp_dir` is a session-owned temp
directory, `initializedFlag` is `self._initialized`. -/
structure SessionState where
  sessionId : String
  port : Nat
  createdAt : Int
  lastUsed : Int
  tempOwned : Bool
  container : Option Nat
  initializedFlag : Bool
  deriving Repr, DecidableEq

/-- `ResearchSession.is_expired` (lines 878-880). -/
def SessionState.isExpired (st : SessionState) (maxIdle now : Int) : Bool :=
  isExpiredAt st.lastUsed maxIdle now

/-- Outcomes of the external calls `initialize()` makes: the `lean --version`
check, `lean init` (its failure only logs a warning), `lean research
--detach` (with the error text used to pick the failure message), and the
net result of the three container-location strategies (output parsing, name
patterns, port binding). -/
structure InitEnv where
  leanCliOk : Bool
  initProjectOk : Bool
  researchOk : Bool
  researchErr : String
  foundContainer : Option Nat
  deriving Repr, DecidableEq

/-- Failure outcomes of the external calls `close()` makes; each is caught
inside `close`. -/
structure CloseEnv where
  stopFails : Bool
  killFails : Bool
  cleanupFails : Bool
  deriving Repr, DecidableEq

/-- `ResearchSession.close(reason)` (lines 882-913): stop the container,
kill as fallback — both failures only logged; clean up the owned temp dir;
log `session_destroyed`.  An exception inside the try-block (modelled: the
temp-dir cleanup raising) skips the `session_destroyed` log but is swallowed
by the except-branch, and the finally-block always clears `_initialized` —
`close` never raises. -/
def closeRS (st : SessionState) (env : CloseEnv) (reason : String) :
    SessionState × List SEvent :=
  if st.tempOwned && env.cleanupFails then
    ({ st with container := none, initializedFlag := false }, [])
  else
    ({ st with container := none, tempOwned := false, initializedFlag := false },
     [SEvent.sessionDestroyed st.sessionId reason])

/-- `error_msg = result.stderr or result.stdout or "Unknown error"`, with the
two streams collapsed into `researchErr`. -/
def errMsgOf (env : InitEnv) : String :=
  if env.researchErr = "" then "Unknown error" else env.researchErr

/-- The message of the `ResearchSessionError` raised when `lean research`
fails (lines 330-347). -/
def researchFailMsg (env : InitEnv) : String :=
  if strContains (errMsgOf env) "Please log in" then
    "Authentication required. Please run 'lean login' first to authenticate with QuantConnect."
  else if strContains (errMsgOf env) "lean.json" ||
      strContains (errMsgOf env) "config.json" then
    "No Lean configuration found. Please run 'lean init' in your project directory first."
  else
    "Failed to start research environment: " ++ errMsgOf env

/-- `ResearchSession.initialize` (lines 286-443).  No-op when already
initialized.  A missing lean-cli or a failed `lean research` raises
`ResearchSessionError`; the except-branch first awaits `close()` and wraps
the message.  A failed `lean init` only logs a warning and continues.  When
the launch succeeds, the three location strategies may or may not find the
container; either way `_initialized` becomes true (location is retried on
the first `execute()`), and `log_session_created` fires only when the
container was found. -/
def initSession (st : SessionState) (env : InitEnv) (cenv : CloseEnv) :
    Except (RSError × SessionState × List SEvent) (SessionState × List SEvent) :=
  if st.initializedFlag then Except.ok (st, [])
  else if ¬ env.leanCliOk then
    let c := closeRS st cenv "normal"
    Except.error
      (⟨"Failed to initialize research session: lean-cli is not installed. Please install it with: pip install lean"⟩,
       c.1, c.2)
  else if ¬ env.researchOk then
    let c := closeRS st cenv "normal"
    Except.error
      (⟨"Failed to initialize research session: " ++ researchFailMsg env⟩,
       c.1, c.2)
  else
    let st2 := { st with container := env.foundContainer, initializedFlag := true }
    match env.foundContainer with
    | some cid => Except.ok (st2, [SEvent.sessionCreated st.sessionId cid])
    | none => Except.ok (st2, [])

/-- The `source` list stored in the appended cell (lines 544-554): `code`
split on newlines, every line but a trailing-empty last one re-terminated
with a newline, with `[""]` for an all-empty split. -/
def cellSourceLines (code : String) : List String :=
  let lines := code.splitOn "\n"
  let src := lines.dropLast.map (fun l => l ++ "\n")
  if lines.getLastD "" ≠ "" then src ++ [lines.getLastD "" ++ "\n"]
  else if src = [] then [""]
  else src

/-- One `container.exec_run` invocation made during `execute` (lines
445-876): the notebook read, the heredoc write (carrying the appended cell's
source), the tooling probe, one strategy attempt (carrying the
`asyncio.wait_for` bound it ran under), the executed-notebook read, and the
cleanup `rm`. -/
inductive ExecCall where
  | catNotebook
  | writeNotebook (source : List String)
  | checkTools
  | strat (idx : Nat) (bound : Int)
  | catExecuted
  | rmExecuted
  deriving Repr, DecidableEq

/-- Outcome of one strategy attempt under `asyncio.wait_for`: the wait timed
out, the attempt raised, or `exec_run` returned an exit code and output. -/
inductive StratOutcome where
  | timedOut
  | raised
  | done (exitCode : Int) (output : String)
  deriving Repr, DecidableEq

/-- One entry of the last cell's `outputs` in the executed notebook. -/
inductive NbOut where
  | stream (text : String)
  | execResult (textPlain : Option String)
  | displayData (textPlain : Option String)
  | errorOut (ename : String) (evalue : String) (traceback : List String)
  deriving Repr, DecidableEq

/-- Outcome of the `cat research.ipynb` read at the start of the try-block:
non-zero exit (a default skeleton notebook is built in memory), a JSON parse
failure (the call returns an error result), or a parsed notebook. -/
inductive ReadNb where
  | readFail
  | parseFail (emsg : String)
  | parsed
  deriving Repr, DecidableEq

/-- Every external outcome one `execute(code, timeout)` call can observe. -/
structure ExecEnv where
  initEnv : InitEnv
  closeEnv : CloseEnv
  relocated : Option Nat
  readNb : ReadNb
  writeOk : Bool
  strat1 : StratOutcome
  strat2 : StratOutcome
  strat3 : StratOutcome
  executedNb : Option (List NbOut)
  deriving Repr, DecidableEq

/-- The for-loop over `exec_commands` (lines 750-783), returning
`(executed_successfully, execution_output, direct_output, trace)`.  Each
attempt runs under `asyncio.wait_for(..., timeout=timeout)`; a timeout or an
exception moves on to the next method (leaving `execution_output` as it
was), a non-zero exit records the output and moves on, exit code 0 breaks
out, recording `direct_output` for the two direct methods (indices 0 and 1,
named "jupyter kernel" and "ipython execution"). -/
def stratLoop (bound : Int) (idx : Nat) (outs : List StratOutcome)
    (execOut dirOut : String) : Bool × String × String × List ExecCall :=
  match outs with
  | [] => (false, execOut, dirOut, [])
  | o :: rest =>
      match o with
      | StratOutcome.timedOut =>
          let r := stratLoop bound (idx + 1) rest execOut dirOut
          (r.1, r.2.1, r.2.2.1, ExecCall.strat idx bound :: r.2.2.2)
      | StratOutcome.raised =>
          let r := stratLoop bound (idx + 1) rest execOut dirOut
          (r.1, r.2.1, r.2.2.1, ExecCall.strat idx bound :: r.2.2.2)
      | StratOutcome.done ec out =>
          if ec = 0 then
            (true, out, if idx ≤ 1 then out else dirOut, [ExecCall.strat idx bound])
          else
            let r := stratLoop bound (idx + 1) rest out dirOut
            (r.1, r.2.1, r.2.2.1, ExecCall.strat idx bound :: r.2.2.2)

/-- The output-extraction loop over the executed notebook's last-cell
outputs (lines 811-839): accumulate stream / execute_result / display_data
text; on the first error-type output return (from inside the loop) the
accumulated output and the formatted error. -/
def extractOutputs (acc : String) (outs : List NbOut) :
    Except (String × String) String :=
  match outs with
  | [] => Except.ok acc
  | o :: rest =>
      match o with
      | NbOut.stream t => extractOutputs (acc ++ t) rest
      | NbOut.execResult tp =>
          match tp with
          | some t => extractOutputs (acc ++ t) rest
          | none => extractOutputs acc rest
      | NbOut.displayData tp =>
          match tp with
          | some t => extractOutputs (acc ++ t) rest
          | none => extractOutputs acc rest
      | NbOut.errorOut ename evalue tb =>
          Except.error (acc,
            "Error: " ++ ename ++ ": " ++ evalue ++ "\n" ++ String.intercalate "\n" tb)

/-- The fallback return at lines 859-867, reached when no strategy
succeeded, or when the executed-notebook read-back could not be parsed:
status is "success" with a note recording the failure details. -/
def fallbackResult (sid : String) (executedSuccessfully : Bool)
    (executionOutput : String) : ExecResult :=
  { status := "success",
    output := "Code added to /LeanCLI/research.ipynb. Executed_successfully output = "
      ++ (if executedSuccessfully then "True" else "False"),
    error := none, sessionId := sid,
    note := some ("Notebook execution failed. Details: " ++
      (if executionOutput = "" then "No details available"
       else pyTake executionOutput 500)) }

/-- The body of the try-block of `execute` (lines 470-876), entered with the
container located: touch `last_used`, read-append-write the notebook, probe
the tooling, run the strategy chain, then return per the post-loop logic.
The try-block's blanket `except Exception` turns any failure into an error
result, so this body never raises. -/
def executeBody (st : SessionState) (env : ExecEnv) (code : String)
    (timeout : Int) (now : Int) (evs : List SEvent) :
    ExecResult × SessionState × List SEvent × List ExecCall :=
  let st3 := { st with lastUsed := now }
  match env.readNb with
  | ReadNb.parseFail emsg =>
      ({ status := "error", output := "",
         error := some ("Failed to parse notebook: " ++ emsg),
         sessionId := st3.sessionId }, st3, evs, [ExecCall.catNotebook])
  | _ =>
      if ¬ env.writeOk then
        ({ status := "error", output := "",
           error := some "Failed to update notebook",
           sessionId := st3.sessionId }, st3, evs,
         [ExecCall.catNotebook, ExecCall.writeNotebook (cellSourceLines code)])
      else
        let sl := stratLoop timeout 0 [env.strat1, env.strat2, env.strat3] "" ""
        let baseTrace := ExecCall.catNotebook ::
          ExecCall.writeNotebook (cellSourceLines code) ::
          ExecCall.checkTools :: sl.2.2.2
        if sl.1 then
          if sl.2.2.1 ≠ "" then
            ({ status := "success", output := sl.2.2.1.trim,
               error := none, sessionId := st3.sessionId }, st3, evs, baseTrace)
          else
            match env.executedNb with
            | some outs =>
                match extractOutputs "" outs with
                | Except.error pair =>
                    ({ status := "error", output := pair.1,
                       error := some pair.2, sessionId := st3.sessionId },
                     st3, evs,
                     baseTrace ++ [ExecCall.catExecuted, ExecCall.rmExecuted])
                | Except.ok cellOut =>
                    ({ status := "success",
                       output := if cellOut = ""
                         then "Code executed successfully (no output)"
                         else cellOut.trim,
                       error := none, sessionId := st3.sessionId },
                     st3, evs,
                     baseTrace ++ [ExecCall.catExecuted, ExecCall.rmExecuted])
            | none =>
                (fallbackResult st3.sessionId sl.1 sl.2.1, st3, evs,
                 baseTrace ++ [ExecCall.catExecuted])
        else
          (fallbackResult st3.sessionId sl.1 sl.2.1, st3, evs, baseTrace)

/-- `ResearchSession.execute(code, timeout=300)` (lines 445-876).  When not
initialized, `initialize()` runs first; a failure there propagates as
`ResearchSessionError` (the only way `execute` raises).  A still-unlocated
container gets one `_find_container` relocation pass; if still unresolved,
a structured error result comes back without touching the sandbox.
Otherwise `executeBody` runs and always returns a result. -/
def executeCLI (st : SessionState) (env : ExecEnv) (code : String)
    (timeout : Int) (now : Int) :
    Except (RSError × SessionState × List SEvent)
      (ExecResult × SessionState × List SEvent × List ExecCall) :=
  match initSession st env.initEnv env.closeEnv with
  | Except.error e => Except.error e
  | Except.ok (st1, evs1) =>
      match st1.container with
      | none =>
          let st2 := { st1 with container := env.relocated }
          match st2.container with
          | none =>
              Except.ok
                ({ status := "error", output := "",
                   error := some "Container not found. The Jupyter environment may still be starting up.",
                   sessionId := st2.sessionId,
                   message := some ("Please check http://localhost:" ++
                     toString st2.port ++ " to see if Jupyter is running.") },
                 st2, evs1, [])
          | some _ => Except.ok (executeBody st2 env code timeout now evs1)
      | some _ => Except.ok (executeBody st1 env code timeout now evs1)

end CLI

namespace DockerRS

/-- The per-session state of the container-adapter `ResearchSession`
(research_session.py); `timeoutDefault` is the constructor's `timeout`
(default 300), used when `execute` gets no timeout.  The workspace and
resource-limit fields are not observed by any claim and are omitted. -/
structure DSession where
  sessionId : String
  timeoutDefault : Int
  createdAt : Int
  lastUsed : Int
  container : Option Nat
  initializedFlag : Bool
  deriving Repr, DecidableEq

/-- One `container.exec_run` made by the container adapter: the
`mkdir -p /Lean/Notebooks`, one of the three Python init probes, or the
user-code script run (carrying the timeout it ran under). -/
inductive DCall where
  | mkdirNotebooks
  | initCmd (idx : Nat)
  | runScript (timeoutUsed : Int)
  deriving Repr, DecidableEq

/-- Outcomes of the external calls `initialize()` (lines 82-189) makes:
`containerStart = none` models the image pull / `containers.run` / status
check failing (each raises, is caught, `close()`d and re-raised wrapped);
`initCmdsOk = false` models one of the three init probes exiting non-zero
(same wrap path).  The probe commands run before a detected failure are
modelled coarsely as the full probe list. -/
structure DInitEnv where
  containerStart : Option Nat
  startErrMsg : String
  initCmdsOk : Bool
  initCmdErr : String
  deriving Repr, DecidableEq

/-- `ResearchSession.initialize` of the container adapter. -/
def dockerInit (st : DSession) (env : DInitEnv) :
    Except (RSError × DSession × List SEvent × List DCall)
      (DSession × List SEvent × List DCall) :=
  if st.initializedFlag then Except.ok (st, [], [])
  else
    match env.containerStart with
    | none =>
        Except.error
          (⟨"Failed to initialize research session: " ++ env.startErrMsg⟩,
           { st with container := none, initializedFlag := false }, [], [])
    | some cid =>
        if ¬ env.initCmdsOk then
          Except.error
            (⟨"Failed to initialize research session: Container initialization failed: "
                ++ env.initCmdErr⟩,
             { st with container := none, initializedFlag := false }, [],
             [DCall.mkdirNotebooks, DCall.initCmd 0, DCall.initCmd 1, DCall.initCmd 2])
        else
          Except.ok
            ({ st with container := some cid, initializedFlag := true },
             [SEvent.sessionCreated st.sessionId cid],
             [DCall.mkdirNotebooks, DCall.initCmd 0, DCall.initCmd 1, DCall.initCmd 2])

/-- `dangerous_patterns` (research_session.py lines 229-232). -/
def dangerousPatterns : List String :=
  ["import os", "import subprocess", "import sys", "__import__",
   "exec(", "eval(", "compile(", "open(", "file("]

/-- Python `code.lower()`. -/
def pyLower (s : String) : String :=
  String.mk (s.toList.map Char.toLower)

/-- The pattern scan (lines 234-239): one `DANGEROUS_CODE_PATTERN` security
violation logged per configured pattern contained in the lowered code. -/
def scanViolations (sid : String) (code : String) : List SEvent :=
  (dangerousPatterns.filter (fun p => strContains (pyLower code) p)).map
    (fun p => SEvent.securityViolation sid "DANGEROUS_CODE_PATTERN" ("Pattern: " ++ p))

/-- Outcome of the script `exec_run` under `asyncio.wait_for` (lines
284-307): the wait timed out, or the run returned an exit code and output,
or some other exception was raised (the blanket except at lines 342-351). -/
inductive DExecOutcome where
  | timedOut
  | done (exitCode : Int) (output : String)
  | raisedOther (emsg : String) (etype : String)
  deriving Repr, DecidableEq

/-- Every external outcome one container-adapter `execute` call can observe.
`hashFn` stands in for `hashlib.sha256(code.encode()).hexdigest()[:16]`, the
audit fingerprint (the hash function itself is outside the model). -/
structure DExecEnv where
  initEnv : DInitEnv
  statusOk : Bool
  statusErrMsg : String
  running : Bool
  statusStr : String
  outcome : DExecOutcome
  hashFn : String → String

/-- `execution_timeout = timeout or self.timeout` (line 242): Python `or`
falls back to the default when `timeout` is `None` or `0` (falsy). -/
def pyOrTimeout (timeout : Option Int) (dflt : Int) : Int :=
  match timeout with
  | some t => if t = 0 then dflt else t
  | none => dflt

/-- The post-gate part of `execute` (lines 241-351), from
`self.last_used = datetime.utcnow()` on: the container health check (whose
`ResearchSessionError`s are re-raised to the caller by the
`except ResearchSessionError: raise` at lines 339-341), then the script
`exec_run` under `asyncio.wait_for` and the exit-code branching; the
blanket `except Exception` turns any other failure into an error result. -/
def runSandbox (st : DSession) (env : DExecEnv) (code : String)
    (timeout : Option Int) (now : Int) (evs : List SEvent) (calls : List DCall) :
    Except (RSError × DSession × List SEvent × List DCall)
      (ExecResult × DSession × List SEvent × List DCall) :=
  let st2 := { st with lastUsed := now }
  let executionTimeout := pyOrTimeout timeout st.timeoutDefault
  if ¬ env.statusOk then
    Except.error
      (⟨"Failed to check container status: " ++ env.statusErrMsg⟩, st2, evs, calls)
  else if ¬ env.running then
    Except.error
      (⟨"Container is not running (status: " ++ env.statusStr ++ ")"⟩, st2, evs, calls)
  else
    match env.outcome with
    | DExecOutcome.timedOut =>
        Except.ok
          ({ status := "error", output := "",
             error := some ("Code execution timed out after " ++
               toString executionTimeout ++ " seconds"),
             sessionId := st2.sessionId, timeoutFlag := some true },
           st2,
           evs ++ [SEvent.resourceLimitHit st2.sessionId "EXECUTION_TIMEOUT"
             (toString executionTimeout ++ "s")],
           calls ++ [DCall.runScript executionTimeout])
    | DExecOutcome.done ec out =>
        if ec = 0 then
          Except.ok
            ({ status := "success", output := out, error := none,
               sessionId := st2.sessionId },
             st2,
             evs ++ [SEvent.codeExecution st2.sessionId (env.hashFn code) true],
             calls ++ [DCall.runScript executionTimeout])
        else
          Except.ok
            ({ status := "error", output := out,
               error := some ("Code execution failed with exit code " ++ toString ec),
               sessionId := st2.sessionId, exitCode := some ec },
             st2,
             evs ++ [SEvent.codeExecution st2.sessionId (env.hashFn code) false],
             calls ++ [DCall.runScript executionTimeout])
    | DExecOutcome.raisedOther emsg etype =>
        Except.ok
          ({ status := "error", output := "",
             error := some ("Unexpected execution error: " ++ emsg),
             sessionId := st2.sessionId, exceptionType := some etype },
           st2,
           evs ++ [SEvent.codeExecution st2.sessionId (env.hashFn code) false],
           calls ++ [DCall.runScript executionTimeout])

/-- `ResearchSession.execute(code, timeout=None)` of the container adapter
(research_session.py lines 191-351): initialize if needed, raise
`ResearchSessionError("Container not available")` when no container handle,
then the security gate — the 50 KB size check rejecting outright with a
logged `CODE_SIZE_LIMIT` violation and no sandbox call, and the
non-blocking pattern scan — then `runSandbox`. -/
def dockerExecute (st : DSession) (env : DExecEnv) (code : String)
    (timeout : Option Int) (now : Int) :
    Except (RSError × DSession × List SEvent × List DCall)
      (ExecResult × DSession × List SEvent × List DCall) :=
  match dockerInit st env.initEnv with
  | Except.error e => Except.error e
  | Except.ok (st1, evs1, calls1) =>
      match st1.container with
      | none => Except.error (⟨"Container not available"⟩, st1, evs1, calls1)
      | some _ =>
          if code.length > 50000 then
            Except.ok
              ({ status := "error", output := "",
                 error := some "Code size exceeds 50KB limit",
                 sessionId := st1.sessionId },
               st1,
               evs1 ++ [SEvent.securityViolation st1.sessionId "CODE_SIZE_LIMIT"
                 ("Code size: " ++ toString code.length ++ " bytes")],
               calls1)
          else
            runSandbox st1 env code timeout now
              (evs1 ++ scanViolations st1.sessionId code) calls1

end DockerRS

namespace CLI

/-- A close-environment in which every external close step succeeds. -/
def quietClose : CloseEnv :=
  { stopFails := false, killFails := false, cleanupFails := false }

theorem initSession_ok_of (st : SessionState) (env : InitEnv) (cenv : CloseEnv)
    (h : st.initializedFlag = true ∨ (env.leanCliOk = true ∧ env.researchOk = true)) :
    ∃ p, initSession st env cenv = Except.ok p := by
  unfold initSession
  by_cases hin : st.initializedFlag = true
  · rw [if_pos (by simp [hin])]
    exact ⟨_, rfl⟩
  · rcases h with h | ⟨h1, h2⟩
    · exact absurd h hin
    · rw [if_neg (by simp [hin] : ¬ (st.initializedFlag = true)),
        if_neg (by simp [h1]), if_neg (by simp [h2])]
      cases env.foundContainer <;> exact ⟨_, rfl⟩

theorem initSession_fresh (st : SessionState) (env : InitEnv) (cenv : CloseEnv)
    (c : Nat) (h0 : st.initializedFlag = false) (h1 : env.leanCliOk = true)
    (h2 : env.researchOk = true) (h3 : env.foundContainer = some c) :
    initSession st env cenv =
      Except.ok ({ st with container := some c, initializedFlag := true },
        [SEvent.sessionCreated st.sessionId c]) := by
  unfold initSession
  rw [if_neg (by simp [h0]), if_neg (by simp [h1]), if_neg (by simp [h2]), h3]

theorem executeBody_state (st : SessionState) (env : ExecEnv) (code : String)
    (timeout now : Int) (evs : List SEvent) :
    (executeBody st env code timeout now evs).2.1 = { st with lastUsed := now } := by
  unfold executeBody
  repeat' first
  | rfl
  | split
  all_goals
    by_cases hsl : (stratLoop timeout 0 [env.strat1, env.strat2, env.strat3] "" "").1 = true <;>
    by_cases hd : (stratLoop timeout 0 [env.strat1, env.strat2, env.strat3] "" "").2.2.1 = "" <;>
    simp [hsl, hd]

/-- Claim C2, amended (research_session_lean_cli.py lines 445-876): once the
session is initialized — or whenever the `initialize()` call made on an
uninitialized session succeeds — `execute` returns a structured result
record (status, output, error, session_id always present) for every
environment outcome: unlocated container, notebook read/parse/write
failures, and every execution-strategy failure all come back as results,
never as exceptions.  The one exception path out of `execute` is a failing
`initialize()` on a not-yet-initialized session (see the counterexample). -/
theorem claim_C2_execute_returns_result (st : SessionState) (env : ExecEnv)
    (code : String) (timeout now : Int)
    (h : st.initializedFlag = true ∨
      (env.initEnv.leanCliOk = true ∧ env.initEnv.researchOk = true)) :
    ∃ r, executeCLI st env code timeout now = Except.ok r := by
  obtain ⟨p, hp⟩ := initSession_ok_of st env.initEnv env.closeEnv h
  unfold executeCLI
  rw [hp]
  obtain ⟨st1, evs1⟩ := p
  cases hc : st1.container with
  | some c => simp [hc]
  | none =>
      simp only [hc]
      cases hr : env.relocated with
      | some c => simp [hr]
      | none => simp [hr]

/-- Witness for the amended C2: a concrete initialized session whose write
step fails still gets a structured error result back. -/
theorem claim_C2_execute_returns_result_witness :
    ∃ r, executeCLI
      { sessionId := "qb_cli", port := 8888, createdAt := 0, lastUsed := 0,
        tempOwned := true, container := some 7, initializedFlag := true }
      { initEnv := { leanCliOk := true, initProjectOk := true, researchOk := true,
                     researchErr := "", foundContainer := some 7 },
        closeEnv := { stopFails := false, killFails := false, cleanupFails := false },
        relocated := none, readNb := ReadNb.parsed, writeOk := false,
        strat1 := StratOutcome.timedOut, strat2 := StratOutcome.timedOut,
        strat3 := StratOutcome.timedOut, executedNb := none }
      "print(1)" 300 5 = Except.ok r :=
  claim_C2_execute_returns_result _ _ "print(1)" 300 5 (Or.inl rfl)

/-- The uninitialized session and lean-cli-missing environment of the C2/C4
counterexamples. -/
def cliFresh : SessionState :=
  { sessionId := "qb_f", port := 8888, createdAt := 0, lastUsed := 0,
    tempOwned := true, container := none, initializedFlag := false }

/-- Environment in which `lean --version` fails: `initialize()` raises. -/
def noCliEnv : ExecEnv :=
  { initEnv := { leanCliOk := false, initProjectOk := false, researchOk := false,
                 researchErr := "", foundContainer := none },
    closeEnv := { stopFails := false, killFails := false, cleanupFails := false },
    relocated := none, readNb := ReadNb.parsed, writeOk := true,
    strat1 := StratOutcome.timedOut, strat2 := StratOutcome.timedOut,
    strat3 := StratOutcome.timedOut, executedNb := none }

/-- Counterexample to C2 as stated: on a session that was not yet
initialized, `execute` calls `initialize()`, and when lean-cli is missing
that raises `ResearchSessionError` out of `execute` — the caller gets an
exception, not a result dictionary. -/
theorem claim_C2_counterexample :
    executeCLI cliFresh noCliEnv "print(1)" 300 0 =
      Except.error
        (⟨"Failed to initialize research session: lean-cli is not installed. Please install it with: pip install lean"⟩,
         { sessionId := "qb_f", port := 8888, createdAt := 0, lastUsed := 0,
           tempOwned := false, container := none, initializedFlag := false },
         [SEvent.sessionDestroyed "qb_f" "normal"]) := by
  rfl

/-- A live, initialized lean-cli session used by several counterexamples. -/
def cliReady : SessionState :=
  { sessionId := "qb_cli", port := 8888, createdAt := 0, lastUsed := 0,
    tempOwned := true, container := some 7, initializedFlag := true }

/-- An environment whose first strategy succeeds immediately. -/
def cliHappyEnv : ExecEnv :=
  { initEnv := { leanCliOk := true, initProjectOk := true, researchOk := true,
                 researchErr := "", foundContainer := some 7 },
    closeEnv := quietClose,
    relocated := none, readNb := ReadNb.parsed, writeOk := true,
    strat1 := StratOutcome.done 0 "1\n", strat2 := StratOutcome.timedOut,
    strat3 := StratOutcome.timedOut, executedNb := none }

/-- Environment for reviving a closed session with a new container id 9. -/
def cliReviveEnv : ExecEnv :=
  { initEnv := { leanCliOk := true, initProjectOk := true, researchOk := true,
                 researchErr := "", foundContainer := some 9 },
    closeEnv := quietClose,
    relocated := none, readNb := ReadNb.parsed, writeOk := true,
    strat1 := StratOutcome.done 0 "1", strat2 := StratOutcome.timedOut,
    strat3 := StratOutcome.timedOut, executedNb := none }

theorem closeRS_resets (st : SessionState) (cenv : CloseEnv) (reason : String) :
    (closeRS st cenv reason).1.initializedFlag = false ∧
      (closeRS st cenv reason).1.container = none := by
  unfold closeRS
  split <;> exact ⟨rfl, rfl⟩

/-- Claim C4, amended (research_session_lean_cli.py lines 882-913 and
450-451): `close()` is not terminal.  It always leaves the session
uninitialized with no container handle (there is no `Closed` state in the
adapter — `close` just resets `_initialized`), and a subsequent `execute()`
on the closed session re-runs `initialize()`; whenever that provisioning
succeeds, the same session object is live again with a (new) container. -/
theorem claim_C4_close_not_terminal (st : SessionState) (cenv : CloseEnv)
    (reason : String) (env : ExecEnv) (code : String) (timeout now : Int) (c : Nat)
    (h1 : env.initEnv.leanCliOk = true) (h2 : env.initEnv.researchOk = true)
    (h3 : env.initEnv.foundContainer = some c) :
    (closeRS st cenv reason).1.initializedFlag = false ∧
      (closeRS st cenv reason).1.container = none ∧
      ∃ r, executeCLI (closeRS st cenv reason).1 env code timeout now = Except.ok r ∧
        r.2.1.initializedFlag = true ∧ r.2.1.container = some c := by
  obtain ⟨hf, hc0⟩ := closeRS_resets st cenv reason
  refine ⟨hf, hc0, ?_⟩
  unfold executeCLI
  rw [initSession_fresh _ env.initEnv env.closeEnv c hf h1 h2 h3]
  refine ⟨executeBody { (closeRS st cenv reason).1 with
      container := some c, initializedFlag := true } env code timeout now
      [SEvent.sessionCreated (closeRS st cenv reason).1.sessionId c], rfl, ?_, ?_⟩
  · rw [executeBody_state]
  · rw [executeBody_state]

/-- Witness for the amended C4 at a concrete closed session. -/
theorem claim_C4_close_not_terminal_witness :
    ∃ r, executeCLI (closeRS cliFresh quietClose "normal").1 cliReviveEnv
        "x" 300 9 = Except.ok r ∧
      r.2.1.initializedFlag = true ∧ r.2.1.container = some 9 :=
  (claim_C4_close_not_terminal cliFresh quietClose "normal"
    cliReviveEnv "x" 300 9 9 rfl rfl rfl).2.2

/-- Counterexample to C4 as stated: after `close()` has returned, a later
`execute()` on the same session object re-initializes it and provisions a
new sandbox (container 9, with a fresh `session_created` audit event) — the
session does not stay closed. -/
theorem claim_C4_counterexample :
    (closeRS cliReady quietClose "normal").1.initializedFlag = false ∧
    (executeCLI (closeRS cliReady quietClose "normal").1
        cliReviveEnv "x" 300 9).map
        (fun r => (r.2.1.initializedFlag, r.2.1.container, r.2.2.1)) =
      Except.ok (true, some 9, [SEvent.sessionCreated "qb_cli" 9]) := by
  exact ⟨rfl, rfl⟩

theorem stratLoop_bound_eq (outs : List StratOutcome) (bound : Int) (idx : Nat)
    (e d : String) (i : Nat) (b : Int)
    (h : ExecCall.strat i b ∈ (stratLoop bound idx outs e d).2.2.2) : b = bound := by
  induction outs generalizing idx e d with
  | nil => simp [stratLoop] at h
  | cons o rest ih =>
      cases o with
      | timedOut =>
          simp only [stratLoop, List.mem_cons, ExecCall.strat.injEq] at h
          rcases h with ⟨h1, h2⟩ | h
          · exact h2
          · exact ih (idx + 1) e d h
      | raised =>
          simp only [stratLoop, List.mem_cons, ExecCall.strat.injEq] at h
          rcases h with ⟨h1, h2⟩ | h
          · exact h2
          · exact ih (idx + 1) e d h
      | done ec out =>
          by_cases hec : ec = 0
          · simp [stratLoop, hec] at h
            exact h.2
          · simp [stratLoop, hec] at h
            rcases h with ⟨h1, h2⟩ | h
            · exact h2
            · exact ih (idx + 1) out d h

theorem stratLoop_moves_on (o : StratOutcome) (rest : List StratOutcome)
    (bound : Int) (idx : Nat) (e d : String)
    (hfail : ∀ ec out, o = StratOutcome.done ec out → ec ≠ 0) :
    ∃ e2, (stratLoop bound idx (o :: rest) e d).2.2.2 =
      ExecCall.strat idx bound :: (stratLoop bound (idx + 1) rest e2 d).2.2.2 := by
  cases o with
  | timedOut => exact ⟨e, rfl⟩
  | raised => exact ⟨e, rfl⟩
  | done ec out =>
      refine ⟨out, ?_⟩
      have hne : ec ≠ 0 := hfail ec out rfl
      simp [stratLoop, hne]

theorem initSession_already (st : SessionState) (env : InitEnv) (cenv : CloseEnv)
    (h : st.initializedFlag = true) :
    initSession st env cenv = Except.ok (st, []) := by
  unfold initSession
  rw [if_pos (by simp [h])]

theorem executeCLI_body (st : SessionState) (env : ExecEnv) (code : String)
    (timeout now : Int) (c : Nat)
    (hinit : st.initializedFlag = true) (hc : st.container = some c) :
    executeCLI st env code timeout now =
      Except.ok (executeBody st env code timeout now []) := by
  unfold executeCLI
  rw [initSession_already st env.initEnv env.closeEnv hinit]
  simp only [hc]

theorem executeBody_all_timeout (st : SessionState) (env : ExecEnv) (code : String)
    (timeout now : Int) (evs : List SEvent)
    (hr : env.readNb = ReadNb.parsed) (hw : env.writeOk = true)
    (h1 : env.strat1 = StratOutcome.timedOut) (h2 : env.strat2 = StratOutcome.timedOut)
    (h3 : env.strat3 = StratOutcome.timedOut) :
    executeBody st env code timeout now evs =
      (fallbackResult st.sessionId false "", { st with lastUsed := now }, evs,
       [ExecCall.catNotebook, ExecCall.writeNotebook (cellSourceLines code),
        ExecCall.checkTools, ExecCall.strat 0 timeout, ExecCall.strat 1 timeout,
        ExecCall.strat 2 timeout]) := by
  unfold executeBody
  rw [hr]
  simp [hw, h1, h2, h3, stratLoop]

theorem executeCLI_all_timeout (st : SessionState) (env : ExecEnv) (code : String)
    (timeout now : Int) (c : Nat)
    (hinit : st.initializedFlag = true) (hc : st.container = some c)
    (hr : env.readNb = ReadNb.parsed) (hw : env.writeOk = true)
    (h1 : env.strat1 = StratOutcome.timedOut) (h2 : env.strat2 = StratOutcome.timedOut)
    (h3 : env.strat3 = StratOutcome.timedOut) :
    executeCLI st env code timeout now =
      Except.ok (fallbackResult st.sessionId false "", { st with lastUsed := now }, [],
        [ExecCall.catNotebook, ExecCall.writeNotebook (cellSourceLines code),
         ExecCall.checkTools, ExecCall.strat 0 timeout, ExecCall.strat 1 timeout,
         ExecCall.strat 2 timeout]) := by
  rw [executeCLI_body st env code timeout now c hinit hc,
    executeBody_all_timeout st env code timeout now [] hr hw h1 h2 h3]

/-- The environment of the C5 witness and counterexample: every strategy
attempt times out under `asyncio.wait_for`. -/
def cliAllTimeoutEnv : ExecEnv :=
  { initEnv := { leanCliOk := true, initProjectOk := true, researchOk := true,
                 researchErr := "", foundContainer := some 7 },
    closeEnv := quietClose,
    relocated := none, readNb := ReadNb.parsed, writeOk := true,
    strat1 := StratOutcome.timedOut, strat2 := StratOutcome.timedOut,
    strat3 := StratOutcome.timedOut, executedNb := none }

end CLI

namespace DockerRS

/-- Audit events carried by an `execute` outcome, raised or returned. -/
def eventsOfD (r : Except (RSError × DSession × List SEvent × List DCall)
    (ExecResult × DSession × List SEvent × List DCall)) : List SEvent :=
  match r with
  | Except.ok p => p.2.2.1
  | Except.error q => q.2.2.1

/-- The same outcome with extra audit events in front (and nothing else
changed): the shape a non-blocking scan gives a run. -/
def withEvents (pre : List SEvent)
    (r : Except (RSError × DSession × List SEvent × List DCall)
      (ExecResult × DSession × List SEvent × List DCall)) :
    Except (RSError × DSession × List SEvent × List DCall)
      (ExecResult × DSession × List SEvent × List DCall) :=
  match r with
  | Except.ok p => Except.ok (p.1, p.2.1, pre ++ p.2.2.1, p.2.2.2)
  | Except.error q => Except.error (q.1, q.2.1, pre ++ q.2.2.1, q.2.2.2)

theorem eventsOfD_withEvents (pre : List SEvent)
    (r : Except (RSError × DSession × List SEvent × List DCall)
      (ExecResult × DSession × List SEvent × List DCall)) :
    eventsOfD (withEvents pre r) = pre ++ eventsOfD r := by
  cases r <;> rfl

theorem dockerInit_already (st : DSession) (env : DInitEnv)
    (h : st.initializedFlag = true) :
    dockerInit st env = Except.ok (st, [], []) := by
  unfold dockerInit
  rw [if_pos (by simp [h])]

theorem dockerExecute_gate_pass (st : DSession) (env : DExecEnv) (code : String)
    (timeout : Option Int) (now : Int) (c : Nat)
    (hinit : st.initializedFlag = true) (hc : st.container = some c)
    (hsize : ¬ code.length > 50000) :
    dockerExecute st env code timeout now =
      runSandbox st env code timeout now (scanViolations st.sessionId code) [] := by
  unfold dockerExecute
  rw [dockerInit_already st env.initEnv hinit]
  simp only [hc]
  rw [if_neg hsize]
  simp

theorem runSandbox_events_acc (st : DSession) (env : DExecEnv) (code : String)
    (timeout : Option Int) (now : Int) (evs : List SEvent) :
    runSandbox st env code timeout now evs [] =
      withEvents evs (runSandbox st env code timeout now [] []) := by
  unfold runSandbox withEvents
  by_cases hs : ¬ env.statusOk
  · simp [hs]
  · by_cases hr : ¬ env.running
    · simp [hs, hr]
    · cases ho : env.outcome with
      | timedOut => simp [hs, hr, ho]
      | done ec out =>
          by_cases hec : ec = 0 <;> simp [hs, hr, ho, hec]
      | raisedOther emsg etype => simp [hs, hr, ho]

theorem runSandbox_timedOut (st : DSession) (env : DExecEnv) (code : String)
    (timeout : Option Int) (now : Int) (evs : List SEvent) (calls : List DCall)
    (hs : env.statusOk = true) (hr : env.running = true)
    (ho : env.outcome = DExecOutcome.timedOut) :
    runSandbox st env code timeout now evs calls =
      Except.ok
        ({ status := "error", output := "",
           error := some ("Code execution timed out after " ++
             toString (pyOrTimeout timeout st.timeoutDefault) ++ " seconds"),
           sessionId := st.sessionId, timeoutFlag := some true },
         { st with lastUsed := now },
         evs ++ [SEvent.resourceLimitHit st.sessionId "EXECUTION_TIMEOUT"
           (toString (pyOrTimeout timeout st.timeoutDefault) ++ "s")],
         calls ++ [DCall.runScript (pyOrTimeout timeout st.timeoutDefault)]) := by
  unfold runSandbox
  rw [if_neg (by simp [hs]), if_neg (by simp [hr]), ho]

theorem mem_scanViolations (sid : String) (code : String) (p : String)
    (hp : p ∈ dangerousPatterns) (hm : strContains (pyLower code) p = true) :
    SEvent.securityViolation sid "DANGEROUS_CODE_PATTERN" ("Pattern: " ++ p)
      ∈ scanViolations sid code := by
  unfold scanViolations
  exact List.mem_map_of_mem _ (List.mem_filter.mpr ⟨hp, hm⟩)

/-- Claim C1, amended (research_session.py lines 206-226): in the
container-adapter `ResearchSession`, an `execute` call on an initialized
session with a container handle whose code payload exceeds the 50000-byte
threshold returns a `status: "error"` result whose message names the 50KB
limit, logs exactly one `CODE_SIZE_LIMIT` security violation, and performs
zero `exec_run` calls.  (The lean-cli `ResearchSession`, which
`SessionManager` actually imports, has no size check at all and proceeds to
the sandbox regardless of payload size — see the counterexample.) -/
theorem claim_C1_size_gate (st : DSession) (env : DExecEnv) (code : String)
    (timeout : Option Int) (now : Int) (c : Nat)
    (hinit : st.initializedFlag = true) (hc : st.container = some c)
    (hbig : code.length > 50000) :
    dockerExecute st env code timeout now =
      Except.ok
        ({ status := "error", output := "",
           error := some "Code size exceeds 50KB limit",
           sessionId := st.sessionId },
         st,
         [SEvent.securityViolation st.sessionId "CODE_SIZE_LIMIT"
           ("Code size: " ++ toString code.length ++ " bytes")],
         []) ∧
      strContains "Code size exceeds 50KB limit" "50KB" = true := by
  refine ⟨?_, by decide⟩
  unfold dockerExecute
  rw [dockerInit_already st env.initEnv hinit]
  simp only [hc]
  rw [if_pos hbig]
  simp

/-- Claim C8, amended (research_session.py lines 229-239): in the
container-adapter `ResearchSession`, for every `execute` call passing the
size check, each configured sensitive substring found in the lowered code is
logged as a `DANGEROUS_CODE_PATTERN` security violation, and the whole call
is otherwise identical to a run without the scan — same result, same state,
same raises, same sandbox calls, with only the scan's audit events
prepended.  (The lean-cli `ResearchSession` performs no pattern scan at all
— see the counterexample.) -/
theorem claim_C8_scan_detects_never_blocks (st : DSession) (env : DExecEnv)
    (code : String) (timeout : Option Int) (now : Int) (c : Nat)
    (hinit : st.initializedFlag = true) (hc : st.container = some c)
    (hsize : ¬ code.length > 50000) :
    (∀ p ∈ dangerousPatterns, strContains (pyLower code) p = true →
      SEvent.securityViolation st.sessionId "DANGEROUS_CODE_PATTERN" ("Pattern: " ++ p)
        ∈ eventsOfD (dockerExecute st env code timeout now)) ∧
    dockerExecute st env code timeout now =
      withEvents (scanViolations st.sessionId code)
        (runSandbox st env code timeout now [] []) := by
  have heq : dockerExecute st env code timeout now =
      withEvents (scanViolations st.sessionId code)
        (runSandbox st env code timeout now [] []) := by
    rw [dockerExecute_gate_pass st env code timeout now c hinit hc hsize,
      runSandbox_events_acc]
  refine ⟨?_, heq⟩
  intro p hp hm
  rw [heq, eventsOfD_withEvents]
  exact List.mem_append_left _ (mem_scanViolations st.sessionId code p hp hm)

/-- A live, initialized container-adapter session for witnesses. -/
def dockerReady : DSession :=
  { sessionId := "qb_docker", timeoutDefault := 300, createdAt := 0, lastUsed := 0,
    container := some 7, initializedFlag := true }

/-- A container-adapter environment whose script run succeeds. -/
def dockerEnvOk : DExecEnv :=
  { initEnv := { containerStart := some 7, startErrMsg := "",
                 initCmdsOk := true, initCmdErr := "" },
    statusOk := true, statusErrMsg := "", running := true, statusStr := "running",
    outcome := DExecOutcome.done 0 "1\n", hashFn := fun _ => "deadbeef" }

/-- A container-adapter environment whose script run times out. -/
def dockerEnvTimeout : DExecEnv :=
  { initEnv := { containerStart := some 7, startErrMsg := "",
                 initCmdsOk := true, initCmdErr := "" },
    statusOk := true, statusErrMsg := "", running := true, statusStr := "running",
    outcome := DExecOutcome.timedOut, hashFn := fun _ => "deadbeef" }

/-- Witness for the amended C8: `"import os"` passes the size gate, its
violation is logged, and the call equals the scan-free run with the scan's
events prepended. -/
theorem claim_C8_scan_detects_never_blocks_witness :
    SEvent.securityViolation "qb_docker" "DANGEROUS_CODE_PATTERN"
        ("Pattern: " ++ "import os")
      ∈ eventsOfD (dockerExecute dockerReady dockerEnvOk "import os" none 5) ∧
    dockerExecute dockerReady dockerEnvOk "import os" none 5 =
      withEvents (scanViolations "qb_docker" "import os")
        (runSandbox dockerReady dockerEnvOk "import os" none 5 [] []) := by
  have h := claim_C8_scan_detects_never_blocks dockerReady dockerEnvOk "import os"
    none 5 7 rfl rfl (by decide)
  exact ⟨h.1 "import os" (by decide) (by decide), h.2⟩

end DockerRS

/-- A 50001-character payload: one character over the 50 KB size threshold
of the container adapter's gate. -/
def bigCode : String := String.mk (List.replicate 50001 'a')

theorem bigCode_length : bigCode.length = 50001 := by
  show (List.replicate 50001 'a').length = 50001
  rw [List.length_replicate]

/-- Witness for the amended C1: the oversized payload is rejected with the
50KB-limit error, the violation logged, and no `exec_run` performed. -/
theorem claim_C1_size_gate_witness :
    bigCode.length > 50000 ∧
    DockerRS.dockerExecute DockerRS.dockerReady DockerRS.dockerEnvOk bigCode none 5 =
      Except.ok
        ({ status := "error", output := "",
           error := some "Code size exceeds 50KB limit",
           sessionId := "qb_docker" },
         DockerRS.dockerReady,
         [SEvent.securityViolation "qb_docker" "CODE_SIZE_LIMIT"
           ("Code size: " ++ toString bigCode.length ++ " bytes")],
         []) := by
  have hbig : bigCode.length > 50000 := by
    rw [bigCode_length]
    norm_num
  exact ⟨hbig, (DockerRS.claim_C1_size_gate DockerRS.dockerReady DockerRS.dockerEnvOk
    bigCode none 5 7 rfl rfl hbig).1⟩

/-- Counterexample to C1 as stated: the lean-cli `ResearchSession.execute`
(the implementation `SessionManager` imports) runs the same oversized
payload with four `exec_run` calls and returns `status: "success"` — no size
rejection, no zero-exec guarantee. -/
theorem claim_C1_counterexample :
    bigCode.length > 50000 ∧
    (CLI.executeCLI CLI.cliReady CLI.cliHappyEnv bigCode 300 5).map
        (fun r => (r.1.status, r.1.error, r.2.2.2.length)) =
      Except.ok ("success", none, 4) := by
  refine ⟨?_, rfl⟩
  rw [bigCode_length]
  norm_num

/-- Claim C5, amended (research_session_lean_cli.py lines 750-783 and
859-867; research_session.py lines 296-307).  (1) Every strategy attempt the
execution loop makes runs under `asyncio.wait_for` with exactly the caller's
timeout as its bound.  (2) A timed-out or failed attempt moves on to the
next strategy instead of aborting the call.  (3) But exhaustion of all
strategies — even when every one timed out — is not surfaced as a timeout:
the lean-cli `execute` returns the fallback result with `status: "success"`,
a note recording the failure, and no `timeout` flag.  (4) Only the container
adapter's single-strategy `execute` surfaces a timed-out run as
`status: "error"` with `timeout: true`. -/
theorem claim_C5_timeout_fallback :
    (∀ (env : CLI.ExecEnv) (timeout : Int) (i : Nat) (b : Int),
      CLI.ExecCall.strat i b ∈
        (CLI.stratLoop timeout 0 [env.strat1, env.strat2, env.strat3] "" "").2.2.2 →
      b = timeout)
    ∧ (∀ (o : CLI.StratOutcome) (rest : List CLI.StratOutcome) (bound : Int)
        (idx : Nat) (e d : String),
        (∀ ec out, o = CLI.StratOutcome.done ec out → ec ≠ 0) →
        ∃ e2, (CLI.stratLoop bound idx (o :: rest) e d).2.2.2 =
          CLI.ExecCall.strat idx bound ::
            (CLI.stratLoop bound (idx + 1) rest e2 d).2.2.2)
    ∧ (∀ (st : CLI.SessionState) (env : CLI.ExecEnv) (code : String)
        (timeout now : Int) (c : Nat),
        st.initializedFlag = true → st.container = some c →
        env.readNb = CLI.ReadNb.parsed → env.writeOk = true →
        env.strat1 = CLI.StratOutcome.timedOut →
        env.strat2 = CLI.StratOutcome.timedOut →
        env.strat3 = CLI.StratOutcome.timedOut →
        CLI.executeCLI st env code timeout now =
          Except.ok (CLI.fallbackResult st.sessionId false "",
            { st with lastUsed := now }, [],
            [CLI.ExecCall.catNotebook,
             CLI.ExecCall.writeNotebook (CLI.cellSourceLines code),
             CLI.ExecCall.checkTools, CLI.ExecCall.strat 0 timeout,
             CLI.ExecCall.strat 1 timeout, CLI.ExecCall.strat 2 timeout]) ∧
          (CLI.fallbackResult st.sessionId false "").status = "success" ∧
          (CLI.fallbackResult st.sessionId false "").timeoutFlag = none)
    ∧ (∀ (st : DockerRS.DSession) (env : DockerRS.DExecEnv) (code : String)
        (timeout : Option Int) (now : Int) (c : Nat),
        st.initializedFlag = true → st.container = some c →
        ¬ code.length > 50000 → env.statusOk = true → env.running = true →
        env.outcome = DockerRS.DExecOutcome.timedOut →
        ∃ r, DockerRS.dockerExecute st env code timeout now = Except.ok r ∧
          r.1.status = "error" ∧ r.1.timeoutFlag = some true) := by
  refine ⟨?_, ?_, ?_, ?_⟩
  · intro env timeout i b h
    exact CLI.stratLoop_bound_eq _ timeout 0 "" "" i b h
  · intro o rest bound idx e d hfail
    exact CLI.stratLoop_moves_on o rest bound idx e d hfail
  · intro st env code timeout now c hinit hc hr hw h1 h2 h3
    exact ⟨CLI.executeCLI_all_timeout st env code timeout now c hinit hc hr hw h1 h2 h3,
      rfl, rfl⟩
  · intro st env code timeout now c hinit hc hsize hs hrun ho
    rw [DockerRS.dockerExecute_gate_pass st env code timeout now c hinit hc hsize,
      DockerRS.runSandbox_timedOut st env code timeout now _ _ hs hrun ho]
    exact ⟨_, rfl, rfl, rfl⟩

/-- Witness for the amended C5: the all-timeout lean-cli run returns the
fallback success with no flag; the container adapter's timed-out run returns
an error result with `timeout: true`. -/
theorem claim_C5_timeout_fallback_witness :
    (CLI.executeCLI CLI.cliReady CLI.cliAllTimeoutEnv "x" 17 5 =
      Except.ok (CLI.fallbackResult "qb_cli" false "",
        { CLI.cliReady with lastUsed := 5 }, [],
        [CLI.ExecCall.catNotebook,
         CLI.ExecCall.writeNotebook (CLI.cellSourceLines "x"),
         CLI.ExecCall.checkTools, CLI.ExecCall.strat 0 17,
         CLI.ExecCall.strat 1 17, CLI.ExecCall.strat 2 17]) ∧
      (CLI.fallbackResult "qb_cli" false "").status = "success" ∧
      (CLI.fallbackResult "qb_cli" false "").timeoutFlag = none) ∧
    ∃ r, DockerRS.dockerExecute DockerRS.dockerReady DockerRS.dockerEnvTimeout
        "x" none 5 = Except.ok r ∧
      r.1.status = "error" ∧ r.1.timeoutFlag = some true := by
  constructor
  · exact claim_C5_timeout_fallback.2.2.1 CLI.cliReady CLI.cliAllTimeoutEnv
      "x" 17 5 7 rfl rfl rfl rfl rfl rfl rfl
  · exact claim_C5_timeout_fallback.2.2.2 DockerRS.dockerReady
      DockerRS.dockerEnvTimeout "x" none 5 7 rfl rfl (by decide) rfl rfl rfl

/-- Counterexample to C5 as stated: in the run where every strategy times
out, the lean-cli `execute` comes back with `status: "success"`, no error
and no `timeout` flag — exhaustion by timeout is surfaced as a success, not
as a `timeout: true` result. -/
theorem claim_C5_counterexample :
    (CLI.executeCLI CLI.cliReady CLI.cliAllTimeoutEnv "x" 17 5).map
        (fun r => (r.1.status, r.1.timeoutFlag, r.1.error)) =
      Except.ok ("success", none, none) := by
  rfl

/-- Counterexample to C8 as stated: `"import os"` is a configured sensitive
substring, yet the lean-cli `ResearchSession.execute` logs no security
violation at all for it (its audit trace is empty) while executing the code
— the universal claim fails on that adapter. -/
theorem claim_C8_counterexample :
    ("import os" ∈ DockerRS.dangerousPatterns) ∧
    strContains (DockerRS.pyLower "import os") "import os" = true ∧
    (CLI.executeCLI CLI.cliReady CLI.cliHappyEnv "import os" 300 5).map
        (fun r => (r.1.status, r.2.2.1)) =
      Except.ok ("success", []) := by
  exact ⟨by decide, by decide, rfl⟩

end QCMCP
